import Mathlib

/-!
Shallow embedding of the session and dispatch layer of zwave-js-server
(src/lib/server.ts, src/lib/outgoing_message.ts): the Client class (one
per websocket connection) and the Clients registry, with the outbound
envelope shapes.  Mutable class state becomes explicit state passing;
each method of the source becomes a state transformer returning the
updated object.  The external collaborators (driver, message handlers,
dumpState) are parameters gathered in an Env record.
-/

namespace ZWS

/-- Snapshot of current domain state, returned by dumpState (state.ts,
an external collaborator per the spec).  Its contents are opaque to the
session layer; we give it a single abstract payload field. -/
structure ZwaveState where
  payload : String
deriving DecidableEq

/-- Origin tag of an outbound event, from OutgoingEvent.source in
outgoing_message.ts: "controller" or "node" or "driver". -/
inductive EventSource
  | controller
  | node
  | driver
deriving DecidableEq

/-- OutgoingEvent of outgoing_message.ts: a source tag plus an event
name (additional payload keys are opaque to the session layer). -/
structure OutgoingEvent where
  source : EventSource
  event : String
deriving DecidableEq

/-- Wire codes of the error taxonomy.  Modelled from the spec: error.ts
is not under src/; the spec's taxonomy names unknownCommand,
unknownError, the domain-originated kind (ErrorCode.zwaveError is
referenced by outgoing_message.ts), and group-specific kinds carrying a
string code. -/
inductive ErrorCode
  | unknownError
  | unknownCommand
  | zwaveError
  | other (code : String)
deriving DecidableEq

/-- Success payload of a result envelope: the start_listening snapshot
(the object with a state field built in receiveMessage), a
group-specific handler payload (opaque to the session layer), or the
value returned when the dispatch lookup hits a callable member
inherited from Object.prototype (for example Object for "constructor"
or "[object Object]" for "toString") and receiveMessage awaits that
call and wraps its result; the value itself is opaque here, recorded by
the member's name. -/
inductive ResultPayload
  | state (s : ZwaveState)
  | handlerResult (v : String)
  | protoValue (name : String)
deriving DecidableEq

/-- An exception reaching the catch block of Client.receiveMessage:
a BaseError of error.ts carrying its errorCode (modelled from the spec,
error.ts is not under src/), a domain error of the controlled-device
subsystem carrying a nested code and message (the ZWaveError of the
upstream library, which is not an instance of the repository's
BaseError class), or a plain unclassified Error. -/
inductive ThrownError
  | base (errorCode : ErrorCode)
  | zwave (code : Nat) (message : String)
  | plain
deriving DecidableEq

/-- Outcome of invoking one handler group's async operation: a returned
payload, or a thrown error. -/
inductive HandlerOutcome
  | success (result : ResultPayload)
  | failure (e : ThrownError)
deriving DecidableEq

/-- Outbound envelopes, from the runtime shape of the objects server.ts
passes to sendData.  The version constructor carries Option fields for
minSchemaVersion and maxSchemaVersion: outgoing_message.ts declares both
as required fields of OutgoingVersionMessage, and none records that the
object literal built by Client.sendVersion omits the key.
resultZWaveError mirrors OutgoingResultMessageZWaveError of
outgoing_message.ts (errorCode fixed to zwaveError, plus nested
zwaveErrorCode and zwaveErrorMessage). -/
inductive OutgoingMessage
  | version (driverVersion : String) (serverVersion : String)
      (homeId : Option Nat) (minSchemaVersion : Option Nat) (maxSchemaVersion : Option Nat)
  | resultSuccess (messageId : String) (result : ResultPayload)
  | resultError (messageId : String) (errorCode : ErrorCode)
  | resultZWaveError (messageId : String) (zwaveErrorCode : Nat) (zwaveErrorMessage : String)
  | event (e : OutgoingEvent)
deriving DecidableEq

/-- MessageId of a result envelope (any of the three result shapes),
none for version and event envelopes. -/
def OutgoingMessage.resultId : OutgoingMessage → Option String
  | OutgoingMessage.resultSuccess mid _ => some mid
  | OutgoingMessage.resultError mid _ => some mid
  | OutgoingMessage.resultZWaveError mid _ _ => some mid
  | OutgoingMessage.version _ _ _ _ _ => none
  | OutgoingMessage.event _ => none

/-- Whether the envelope is a result envelope correlated to mid. -/
def OutgoingMessage.isResultFor (mid : String) (m : OutgoingMessage) : Bool :=
  m.resultId = some mid

/-- Whether the envelope carries the nested domain-error fields
zwaveErrorCode and zwaveErrorMessage. -/
def OutgoingMessage.hasZWaveFields : OutgoingMessage → Bool
  | OutgoingMessage.resultZWaveError _ _ _ => true
  | _ => false

/-- Mentions of a string in an outgoing message: whether any string
field of the serialized envelope equals s.  The serialization of a
value returned by an inherited Object.prototype member is not
modelled, so protoValue conservatively counts as possibly mentioning
any string. -/
def ResultPayload.mentionsString (s : String) : ResultPayload → Bool
  | ResultPayload.state st => st.payload = s
  | ResultPayload.handlerResult v => v = s
  | ResultPayload.protoValue _ => true

/-- Mentions of a string in an envelope: true iff some string-valued
field of the envelope (or of its payload) equals s. -/
def OutgoingMessage.mentionsString (s : String) : OutgoingMessage → Bool
  | OutgoingMessage.version dv sv _ _ _ => dv = s || sv = s
  | OutgoingMessage.resultSuccess mid r => mid = s || r.mentionsString s
  | OutgoingMessage.resultError mid ec =>
      mid = s || (match ec with | ErrorCode.other c => c = s | _ => false)
  | OutgoingMessage.resultZWaveError mid _ zm => mid = s || zm = s
  | OutgoingMessage.event e => e.event = s

/-- IncomingMessage (incoming_message.ts): the decoded command
envelope, a caller-chosen opaque messageId and a dot-qualified
command. -/
structure IncomingMessage where
  messageId : String
  command : String
deriving DecidableEq

/-- An inbound frame as Client.receiveMessage sees it: JSON.parse
either throws (malformed) or yields a decoded message. -/
inductive Frame
  | malformed
  | ok (msg : IncomingMessage)
deriving DecidableEq

/-- Handler-group keys of the dispatch table.  Modelled from the spec:
instance.ts is not under src/; the Instance enum's members controller,
driver and node follow from the handler record of server.ts, the
OutgoingEvent source union, and the command prefixes of
driver/command.ts. -/
inductive Instance
  | controller
  | driver
  | node
deriving DecidableEq

/-- Own keys of the instanceHandlers object literal: the Instance
enum's string values "controller", "driver", "node". -/
def instanceOfString : String → Option Instance
  | "controller" => some Instance.controller
  | "driver" => some Instance.driver
  | "node" => some Instance.node
  | _ => none

/-- What the property access this.instanceHandlers[instance] and the
following truthiness check and call observe.  The record is a plain
object literal, so the access also finds the members every plain
object inherits from Object.prototype; all of them are truthy, so they
pass the if check and get called with (msg).  Calling constructor,
toString, toLocaleString, valueOf, hasOwnProperty, isPrototypeOf,
propertyIsEnumerable, or the Annex-B lookupGetter/lookupSetter pair on
a message object returns a value (protoCallable); calling
defineGetter or defineSetter throws a TypeError because their second
argument is not callable, and the value of the inherited proto
accessor is Object.prototype itself, an object that is not callable,
so calling it also throws a TypeError (protoThrowing); every other
string reads as undefined, which is falsy (undef). -/
inductive HandlerLookup
  | ownHandler (inst : Instance)
  | protoCallable (name : String)
  | protoThrowing (name : String)
  | undef
deriving DecidableEq

/-- The truthiness lookup itself, over the group string. -/
def handlerLookup (s : String) : HandlerLookup :=
  match instanceOfString s with
  | some inst => HandlerLookup.ownHandler inst
  | none =>
      if s = "constructor" || s = "toString" || s = "toLocaleString" || s = "valueOf"
          || s = "hasOwnProperty" || s = "isPrototypeOf" || s = "propertyIsEnumerable"
          || s = "__lookupGetter__" || s = "__lookupSetter__" then
        HandlerLookup.protoCallable s
      else if s = "__proto__" || s = "__defineGetter__" || s = "__defineSetter__" then
        HandlerLookup.protoThrowing s
      else HandlerLookup.undef

/-- First component of msg.command.split(".") as destructured by
const [instance] = ... in receiveMessage: the characters before the
first dot (the whole string when there is no dot). -/
def commandInstance (command : String) : String :=
  (command.toList.takeWhile (fun ch => ch ≠ '.')).asString

/-- External collaborators of one server: identity fields used by
sendVersion (version from const.ts, driver.controller.homeId), the
dumpState snapshot, and the two externally implemented handler groups
(ControllerMessageHandler.handle, NodeMessageHandler.handle). -/
structure Env where
  serverVersion : String
  homeId : Option Nat
  dumpState : ZwaveState
  controllerHandle : IncomingMessage → HandlerOutcome
  nodeHandle : IncomingMessage → HandlerOutcome

/-- The instanceHandlers record of the Client class: controller and
node delegate to the external message handlers; the driver entry is
() => throw new Error("Driver handler not implemented."), a plain
unclassified exception. -/
def instanceHandler (env : Env) : Instance → IncomingMessage → HandlerOutcome
  | Instance.controller => env.controllerHandle
  | Instance.driver => fun _ => HandlerOutcome.failure ThrownError.plain
  | Instance.node => env.nodeHandle

/-- State of one Client (one websocket connection): the two mutable
flags of the class, the socket's readyState abstracted to whether it is
OPEN, the frames passed to socket.send (in order), and a count of
socket.ping() calls (the observable effect of the liveness probe). -/
structure Client where
  receiveEvents : Bool := false
  outstandingPing : Bool := false
  socketOpen : Bool := true
  pingsSent : Nat := 0
  sent : List OutgoingMessage := []
deriving DecidableEq

/-- Client.isConnected: this.socket.readyState === this.socket.OPEN. -/
def Client.isConnected (c : Client) : Bool :=
  c.socketOpen

/-- Client.sendData: socket.send(JSON.stringify(data)), recorded as an
appended outbound frame. -/
def Client.sendData (c : Client) (m : OutgoingMessage) : Client :=
  { c with sent := c.sent ++ [m] }

/-- Client.sendVersion: sends the object literal with type "version",
driverVersion "TBD", serverVersion and homeId; the literal has no
minSchemaVersion or maxSchemaVersion key (recorded as none), although
OutgoingVersionMessage declares both fields. -/
def Client.sendVersion (env : Env) (c : Client) : Client :=
  c.sendData (OutgoingMessage.version "TBD" env.serverVersion env.homeId none none)

/-- Client.sendResultSuccess. -/
def Client.sendResultSuccess (c : Client) (messageId : String) (result : ResultPayload) : Client :=
  c.sendData (OutgoingMessage.resultSuccess messageId result)

/-- Client.sendResultError: sends type "result", success false,
messageId and errorCode; no other field. -/
def Client.sendResultError (c : Client) (messageId : String) (errorCode : ErrorCode) : Client :=
  c.sendData (OutgoingMessage.resultError messageId errorCode)

/-- Client.sendEvent. -/
def Client.sendEvent (c : Client) (e : OutgoingEvent) : Client :=
  c.sendData (OutgoingMessage.event e)

/-- Effect of this.socket.close(): the socket leaves the OPEN state. -/
def Client.socketClose (c : Client) : Client :=
  { c with socketOpen := false }

/-- Client.disconnect: this.socket.close(). -/
def Client.disconnect (c : Client) : Client :=
  c.socketClose

/-- The socket's pong listener installed in the constructor:
this._outstandingPing = false. -/
def Client.onPong (c : Client) : Client :=
  { c with outstandingPing := false }

/-- Client.checkAlive: if a ping is outstanding, disconnect; otherwise
set the flag and ping the socket. -/
def Client.checkAlive (c : Client) : Client :=
  if c.outstandingPing then
    c.disconnect
  else
    { c with outstandingPing := true, pingsSent := c.pingsSent + 1 }

/-- Client.receiveMessage, line by line: a frame JSON.parse rejects
closes the socket and sends nothing; "start_listening" replies with the
snapshot result then sets receiveEvents; otherwise the first component
of command feeds the truthiness lookup
if (this.instanceHandlers[instance]) — an own key dispatches and wraps
the outcome (thrown BaseErrors keep their errorCode; a domain
ZWaveError is not a BaseError and, like a plain Error, is sent as
unknownError); a callable Object.prototype member also passes the
check, its call returns a value, and that value is wrapped in a
success result; an inherited member whose call throws a TypeError is
caught by the non-BaseError branch and sent as unknownError; only a
string that reads as undefined reaches
throw new UnknownCommandError(msg.command), caught by the BaseError
branch and sent as its errorCode unknownCommand. -/
def Client.receiveMessage (env : Env) (c : Client) (frame : Frame) : Client :=
  match frame with
  | Frame.malformed => c.socketClose
  | Frame.ok msg =>
    if msg.command = "start_listening" then
      { c.sendResultSuccess msg.messageId (ResultPayload.state env.dumpState) with
          receiveEvents := true }
    else
      match handlerLookup (commandInstance msg.command) with
      | HandlerLookup.ownHandler inst =>
        match instanceHandler env inst msg with
        | HandlerOutcome.success r => c.sendResultSuccess msg.messageId r
        | HandlerOutcome.failure (ThrownError.base code) => c.sendResultError msg.messageId code
        | HandlerOutcome.failure (ThrownError.zwave _ _) =>
            c.sendResultError msg.messageId ErrorCode.unknownError
        | HandlerOutcome.failure ThrownError.plain =>
            c.sendResultError msg.messageId ErrorCode.unknownError
      | HandlerLookup.protoCallable name =>
          c.sendResultSuccess msg.messageId (ResultPayload.protoValue name)
      | HandlerLookup.protoThrowing _ =>
          c.sendResultError msg.messageId ErrorCode.unknownError
      | HandlerLookup.undef => c.sendResultError msg.messageId ErrorCode.unknownCommand

/-- Sequential delivery of inbound frames to one session. -/
def Client.receiveMessages (env : Env) (c : Client) (frames : List Frame) : Client :=
  frames.foldl (Client.receiveMessage env) c

/-- Count of result envelopes correlated to mid in an outbound trace. -/
def resultCount (mid : String) (l : List OutgoingMessage) : Nat :=
  (l.filter (OutgoingMessage.isResultFor mid)).length

/-- Count of frames that decode to a command envelope with messageId
mid. -/
def decodedCount (mid : String) (frames : List Frame) : Nat :=
  (frames.filter (fun f =>
    match f with
    | Frame.ok m => m.messageId = mid
    | Frame.malformed => false)).length

/-- State of the Clients registry: the tracked sessions and the three
lazily managed fields (whether the ping interval exists, whether the
event forwarder exists, and the cleanupScheduled debounce flag). -/
structure Clients where
  clients : List Client := []
  pingIntervalSet : Bool := false
  eventForwarderSet : Bool := false
  cleanupScheduled : Bool := false
deriving DecidableEq

/-- Clients.addSocket: builds a fresh Client for the socket, sends its
version envelope, pushes it, then lazily creates the ping interval and
the event forwarder if absent.  The socket's close listener
(scheduleClientCleanup) is modelled by the closeNotify scheduler event
below. -/
def Clients.addSocket (env : Env) (cs : Clients) : Clients :=
  let client : Client := { }
  let client := client.sendVersion env
  let cs1 := { cs with clients := cs.clients ++ [client] }
  let cs2 := if cs1.pingIntervalSet then cs1 else { cs1 with pingIntervalSet := true }
  if cs2.eventForwarderSet then cs2 else { cs2 with eventForwarderSet := true }

/-- Body of the setInterval callback installed by addSocket: every
connected client is kept in newClients; a non-connected one has
disconnect() called (socket.close() on a socket that is already not
OPEN, which changes nothing observable here) and is dropped. -/
def Clients.sweep (cs : Clients) : Clients :=
  { cs with clients := cs.clients.filter (fun cl => cl.isConnected) }

/-- The event-forwarder callback installed by addSocket: sendEvent to
every tracked client with receiveEvents and isConnected both true. -/
def Clients.fanOut (cs : Clients) (data : OutgoingEvent) : Clients :=
  { cs with clients := cs.clients.map (fun cl =>
      if cl.receiveEvents && cl.isConnected then cl.sendEvent data else cl) }

/-- Clients.scheduleClientCleanup, effect on the registry's own state:
return early when a cleanup is already scheduled, otherwise set the
flag (the setTimeout enqueue is tracked by the scheduler model
below). -/
def Clients.scheduleClientCleanup (cs : Clients) : Clients :=
  if cs.cleanupScheduled then cs else { cs with cleanupScheduled := true }

/-- Clients.cleanupClients: clear the debounce flag and keep only the
connected clients. -/
def Clients.cleanupClients (cs : Clients) : Clients :=
  { cs with cleanupScheduled := false,
            clients := cs.clients.filter (fun cl => cl.isConnected) }

/-- Intermediate state of Clients.disconnect after
this.clients.forEach((client) => client.disconnect()). -/
def Clients.disconnectClients (cs : Clients) : Clients :=
  { cs with clients := cs.clients.map Client.disconnect }

/-- Clients.disconnect (registry shutdown): clearInterval on the ping
interval and reset it to undefined, disconnect every tracked client,
then clear the list. -/
def Clients.disconnect (cs : Clients) : Clients :=
  let cs1 := { cs with pingIntervalSet := false }
  let cs2 := cs1.disconnectClients
  { cs2 with clients := [] }

/-- Registry state paired with the runtime's task queue for the
debounced cleanup: pendingCleanups counts setTimeout(cleanupClients, 0)
tasks enqueued but not yet run. -/
structure SchedState where
  cs : Clients
  pendingCleanups : Nat
deriving DecidableEq

/-- Events touching the cleanup machinery: a transport close
notification (the socket close listener calls scheduleClientCleanup,
enqueueing a task only when the flag was clear), and the runtime firing
one queued cleanup task (possible only when one is queued). -/
inductive RegEvent
  | closeNotify
  | runCleanup
deriving DecidableEq

/-- One scheduler step. -/
def schedStep (s : SchedState) : RegEvent → SchedState
  | RegEvent.closeNotify =>
      { cs := s.cs.scheduleClientCleanup,
        pendingCleanups :=
          if s.cs.cleanupScheduled then s.pendingCleanups else s.pendingCleanups + 1 }
  | RegEvent.runCleanup =>
      if s.pendingCleanups = 0 then s
      else { cs := s.cs.cleanupClients, pendingCleanups := s.pendingCleanups - 1 }

/-- Run of a sequence of scheduler events. -/
def runSched (evs : List RegEvent) (s : SchedState) : SchedState :=
  evs.foldl schedStep s

/-- Debounce invariant: the cleanupScheduled flag is set exactly when
one cleanup task is queued. -/
def DebounceInv (s : SchedState) : Prop :=
  (s.cs.cleanupScheduled = true ↔ s.pendingCleanups = 1) ∧ s.pendingCleanups ≤ 1

/-- Concrete environment used by witnesses: handlers succeed. -/
def env0 : Env :=
  { serverVersion := "1.0.0"
    homeId := some 1
    dumpState := { payload := "snapshot" }
    controllerHandle := fun _ => HandlerOutcome.success (ResultPayload.handlerResult "ok")
    nodeHandle := fun _ => HandlerOutcome.success (ResultPayload.handlerResult "ok") }

/-- Concrete environment whose handlers throw a domain error of the
controlled-device subsystem (a ZWaveError with nested code and
message). -/
def envZ : Env :=
  { serverVersion := "1.0.0"
    homeId := some 1
    dumpState := { payload := "snapshot" }
    controllerHandle := fun _ => HandlerOutcome.failure (ThrownError.zwave 100 "Node not found")
    nodeHandle := fun _ => HandlerOutcome.failure (ThrownError.zwave 100 "Node not found") }

/-- A fresh client as the Client constructor leaves it. -/
def c0 : Client := { }

/-- A connected client that is awaiting a pong (its outstandingPing
flag is set) and subscribed to nothing. -/
def stuckClient : Client :=
  { receiveEvents := false, outstandingPing := true, socketOpen := true,
    pingsSent := 0, sent := [] }

/-- A registry tracking only stuckClient, with its interval and
forwarder started. -/
def stuckRegistry : Clients :=
  { clients := [stuckClient], pingIntervalSet := true,
    eventForwarderSet := true, cleanupScheduled := false }

/-- A subscribed, connected client used by the fan-out witness. -/
def clW : Client :=
  { receiveEvents := true, outstandingPing := false, socketOpen := true,
    pingsSent := 0, sent := [] }

/-- A registry tracking only clW. -/
def csW : Clients :=
  { clients := [clW], pingIntervalSet := true,
    eventForwarderSet := true, cleanupScheduled := false }

/-- A concrete upstream event. -/
def evW : OutgoingEvent :=
  { source := EventSource.node, event := "value updated" }

/-! Helper lemmas shared by the claim theorems. -/

/-- Every successfully decoded frame makes receiveMessage append
exactly one envelope, a result correlated to the frame's messageId, and
leaves the socket state alone. -/
theorem receiveMessage_ok_spec (env : Env) (c : Client) (msg : IncomingMessage) :
    ∃ r : OutgoingMessage,
      (Client.receiveMessage env c (Frame.ok msg)).sent = c.sent ++ [r]
        ∧ r.resultId = some msg.messageId
        ∧ (Client.receiveMessage env c (Frame.ok msg)).socketOpen = c.socketOpen := by
  unfold Client.receiveMessage
  by_cases hsl : msg.command = "start_listening"
  · refine ⟨OutgoingMessage.resultSuccess msg.messageId (ResultPayload.state env.dumpState), ?_⟩
    simp [hsl, Client.sendResultSuccess, Client.sendData, OutgoingMessage.resultId]
  · simp only [if_neg hsl]
    cases hlk : handlerLookup (commandInstance msg.command) with
    | undef =>
        exact ⟨OutgoingMessage.resultError msg.messageId ErrorCode.unknownCommand,
          by simp [hlk, Client.sendResultError, Client.sendData, OutgoingMessage.resultId]⟩
    | protoCallable name =>
        exact ⟨OutgoingMessage.resultSuccess msg.messageId (ResultPayload.protoValue name),
          by simp [hlk, Client.sendResultSuccess, Client.sendData, OutgoingMessage.resultId]⟩
    | protoThrowing name =>
        exact ⟨OutgoingMessage.resultError msg.messageId ErrorCode.unknownError,
          by simp [hlk, Client.sendResultError, Client.sendData, OutgoingMessage.resultId]⟩
    | ownHandler inst =>
        cases hout : instanceHandler env inst msg with
        | success r =>
            exact ⟨OutgoingMessage.resultSuccess msg.messageId r,
              by simp [hlk, hout, Client.sendResultSuccess, Client.sendData,
                OutgoingMessage.resultId]⟩
        | failure e =>
            cases e with
            | base code =>
                exact ⟨OutgoingMessage.resultError msg.messageId code,
                  by simp [hlk, hout, Client.sendResultError, Client.sendData,
                    OutgoingMessage.resultId]⟩
            | zwave zc zm =>
                exact ⟨OutgoingMessage.resultError msg.messageId ErrorCode.unknownError,
                  by simp [hlk, hout, Client.sendResultError, Client.sendData,
                    OutgoingMessage.resultId]⟩
            | plain =>
                exact ⟨OutgoingMessage.resultError msg.messageId ErrorCode.unknownError,
                  by simp [hlk, hout, Client.sendResultError, Client.sendData,
                    OutgoingMessage.resultId]⟩

/-- resultCount distributes over trace concatenation. -/
theorem resultCount_append (mid : String) (l1 l2 : List OutgoingMessage) :
    resultCount mid (l1 ++ l2) = resultCount mid l1 + resultCount mid l2 := by
  simp [resultCount, List.filter_append]

/-- A result envelope for the frame's own messageId counts 1 towards
resultCount mid exactly when the ids agree. -/
theorem resultCount_singleton (mid : String) (r : OutgoingMessage) (id2 : String)
    (hr : r.resultId = some id2) :
    resultCount mid [r] = (if id2 = mid then 1 else 0) := by
  by_cases h : id2 = mid
  · subst h
    simp [resultCount, List.filter, OutgoingMessage.isResultFor, hr]
  · simp [resultCount, List.filter, OutgoingMessage.isResultFor, hr, h]

/-- Per-frame result accounting for one receiveMessage call. -/
theorem resultCount_receiveMessage (env : Env) (c : Client) (f : Frame) (mid : String) :
    resultCount mid (Client.receiveMessage env c f).sent
      = resultCount mid c.sent + decodedCount mid [f] := by
  cases f with
  | malformed =>
      simp [Client.receiveMessage, Client.socketClose, decodedCount, List.filter]
  | ok msg =>
      obtain ⟨r, hsent, hid, -⟩ := receiveMessage_ok_spec env c msg
      rw [hsent, resultCount_append, resultCount_singleton mid r msg.messageId hid]
      by_cases h : msg.messageId = mid
      · simp [decodedCount, List.filter, h]
      · simp [decodedCount, List.filter, h]

/-- Sequence-level result accounting for receiveMessages. -/
theorem resultCount_receiveMessages (env : Env) (frames : List Frame) :
    ∀ (c : Client) (mid : String),
      resultCount mid (Client.receiveMessages env c frames).sent
        = resultCount mid c.sent + decodedCount mid frames := by
  induction frames with
  | nil => intro c mid; simp [Client.receiveMessages, decodedCount]
  | cons f fs ih =>
      intro c mid
      have hstep := resultCount_receiveMessage env c f mid
      have hone : decodedCount mid (f :: fs) = decodedCount mid [f] + decodedCount mid fs := by
        cases f with
        | malformed => simp [decodedCount, List.filter]
        | ok m =>
            by_cases h : m.messageId = mid
            all_goals simp [decodedCount, List.filter, h]
            all_goals try omega
      calc resultCount mid (Client.receiveMessages env c (f :: fs)).sent
          = resultCount mid (Client.receiveMessages env (Client.receiveMessage env c f) fs).sent := by
            simp [Client.receiveMessages]
        _ = resultCount mid (Client.receiveMessage env c f).sent + decodedCount mid fs :=
            ih (Client.receiveMessage env c f) mid
        _ = resultCount mid c.sent + decodedCount mid [f] + decodedCount mid fs := by rw [hstep]
        _ = resultCount mid c.sent + decodedCount mid (f :: fs) := by omega

/-- The debounce invariant is preserved by every scheduler step. -/
theorem debounceInv_step (s : SchedState) (e : RegEvent)
    (h : DebounceInv s) : DebounceInv (schedStep s e) := by
  obtain ⟨hiff, hle⟩ := h
  cases e with
  | closeNotify =>
      by_cases hflag : s.cs.cleanupScheduled = true
      · constructor
        · simpa [schedStep, Clients.scheduleClientCleanup, hflag] using hiff
        · simpa [schedStep, hflag] using hle
      · have hflag2 : s.cs.cleanupScheduled = false := by
          cases hsc : s.cs.cleanupScheduled with
          | true => exact absurd hsc hflag
          | false => rfl
        have hzero : s.pendingCleanups = 0 := by
          rcases Nat.lt_or_ge s.pendingCleanups 1 with h1 | h1
          · omega
          · have : s.pendingCleanups = 1 := by omega
            exact absurd (hiff.mpr this) (by simp [hflag2])
        constructor
        · simp [schedStep, Clients.scheduleClientCleanup, hflag2, hzero]
        · simp [schedStep, hflag2, hzero]
  | runCleanup =>
      by_cases hzero : s.pendingCleanups = 0
      · constructor
        · simp only [schedStep, if_pos hzero]
          exact hiff
        · simp only [schedStep, if_pos hzero]
          exact hle
      · have hone : s.pendingCleanups = 1 := by omega
        constructor
        · simp [schedStep, hzero, hone, Clients.cleanupClients]
        · simp [schedStep, hzero, hone]

/-- The debounce invariant is preserved by every scheduler run. -/
theorem debounceInv_run (evs : List RegEvent) :
    ∀ s : SchedState, DebounceInv s → DebounceInv (runSched evs s) := by
  induction evs with
  | nil => intro s h; exact h
  | cons e es ih =>
      intro s h
      have h1 := debounceInv_step s e h
      simpa [runSched] using ih (schedStep s e) h1

/-! Claim theorems. -/

/-- C1: on one session, every frame that decodes successfully makes
receiveMessage emit exactly one result envelope (success or failure),
correlated to the frame's messageId, without touching the socket;
a frame that fails to decode closes the socket and emits nothing; and
over any sequence of inbound frames the number of result envelopes
correlated to a messageId equals the number of decoded frames carrying
it (no drops, no duplicates). -/
theorem receive_exactly_one_result :
    (∀ (env : Env) (c : Client) (msg : IncomingMessage),
      ∃ r : OutgoingMessage,
        (Client.receiveMessage env c (Frame.ok msg)).sent = c.sent ++ [r]
          ∧ r.resultId = some msg.messageId
          ∧ (Client.receiveMessage env c (Frame.ok msg)).socketOpen = c.socketOpen)
    ∧ (∀ (env : Env) (c : Client),
        (Client.receiveMessage env c Frame.malformed).sent = c.sent
          ∧ (Client.receiveMessage env c Frame.malformed).socketOpen = false)
    ∧ (∀ (env : Env) (c : Client) (frames : List Frame) (mid : String),
        resultCount mid (Client.receiveMessages env c frames).sent
          = resultCount mid c.sent + decodedCount mid frames) := by
  refine ⟨receiveMessage_ok_spec, ?_, ?_⟩
  · intro env c
    exact ⟨rfl, rfl⟩
  · intro env c frames mid
    exact resultCount_receiveMessages env frames c mid

/-- C5: processing start_listening replies with a success result
carrying the state snapshot and sets receiveEvents; processing it a
second time re-sends a snapshot success result and leaves receiveEvents
true; the socket is untouched both times. -/
theorem start_listening_idempotent (env : Env) (c : Client) (mid1 mid2 : String) :
    (Client.receiveMessage env c (Frame.ok ⟨mid1, "start_listening"⟩)).receiveEvents = true
    ∧ (Client.receiveMessage env
        (Client.receiveMessage env c (Frame.ok ⟨mid1, "start_listening"⟩))
        (Frame.ok ⟨mid2, "start_listening"⟩)).receiveEvents = true
    ∧ (Client.receiveMessage env c (Frame.ok ⟨mid1, "start_listening"⟩)).sent
        = c.sent ++ [OutgoingMessage.resultSuccess mid1 (ResultPayload.state env.dumpState)]
    ∧ (Client.receiveMessage env
        (Client.receiveMessage env c (Frame.ok ⟨mid1, "start_listening"⟩))
        (Frame.ok ⟨mid2, "start_listening"⟩)).sent
        = c.sent ++ [OutgoingMessage.resultSuccess mid1 (ResultPayload.state env.dumpState),
                     OutgoingMessage.resultSuccess mid2 (ResultPayload.state env.dumpState)]
    ∧ (Client.receiveMessage env c (Frame.ok ⟨mid1, "start_listening"⟩)).socketOpen
        = c.socketOpen := by
  refine ⟨?_, ?_, ?_, ?_, ?_⟩ <;>
    simp [Client.receiveMessage, Client.sendResultSuccess, Client.sendData]

/-- C6 counterexample, two independent refutations at concrete inputs.
First, the failure envelope for "bogus.action" carries only type,
messageId, success and errorCode; no field of the envelope carries the
command string (it lives only in the server-side logged
UnknownCommandError).  Second, not every command with an unregistered
group gets an unknownCommand failure at all: "constructor.x" has no
registered handler, yet the truthiness lookup finds
Object.prototype.constructor, so the session replies with a success
envelope; and for "__proto__.x" the lookup finds Object.prototype
itself and calling it throws, so the reply is an unknownError
failure. -/
theorem unknown_command_envelope_lacks_command :
    (Client.receiveMessage env0 c0 (Frame.ok ⟨"m1", "bogus.action"⟩)).sent
        = [OutgoingMessage.resultError "m1" ErrorCode.unknownCommand]
    ∧ (Client.receiveMessage env0 c0 (Frame.ok ⟨"m1", "bogus.action"⟩)).socketOpen = true
    ∧ (∀ m ∈ (Client.receiveMessage env0 c0 (Frame.ok ⟨"m1", "bogus.action"⟩)).sent,
        OutgoingMessage.mentionsString "bogus.action" m = false)
    ∧ instanceOfString (commandInstance "constructor.x") = none
    ∧ (Client.receiveMessage env0 c0 (Frame.ok ⟨"m6", "constructor.x"⟩)).sent
        = [OutgoingMessage.resultSuccess "m6" (ResultPayload.protoValue "constructor")]
    ∧ instanceOfString (commandInstance "__proto__.x") = none
    ∧ (Client.receiveMessage env0 c0 (Frame.ok ⟨"m7", "__proto__.x"⟩)).sent
        = [OutgoingMessage.resultError "m7" ErrorCode.unknownError] := by
  decide

/-- C6 amended: a decoded command other than start_listening whose
group component is neither an own key of instanceHandlers nor a member
inherited from Object.prototype (so the truthiness lookup reads
undefined) makes the session reply with a failure result envelope
whose errorCode is unknownCommand (the envelope itself does not
include the command string) and does not close the connection. -/
theorem unknown_group_yields_unknownCommand (env : Env) (c : Client) (msg : IncomingMessage)
    (h1 : msg.command ≠ "start_listening")
    (h2 : handlerLookup (commandInstance msg.command) = HandlerLookup.undef) :
    (Client.receiveMessage env c (Frame.ok msg)).sent
        = c.sent ++ [OutgoingMessage.resultError msg.messageId ErrorCode.unknownCommand]
    ∧ (Client.receiveMessage env c (Frame.ok msg)).socketOpen = c.socketOpen := by
  constructor <;>
    simp [Client.receiveMessage, if_neg h1, h2, Client.sendResultError, Client.sendData]

/-- C6 amended, witness at the command "bogus.action". -/
theorem unknown_group_yields_unknownCommand_witness :
    (Client.receiveMessage env0 c0 (Frame.ok ⟨"m2", "bogus.action"⟩)).sent
        = c0.sent ++ [OutgoingMessage.resultError "m2" ErrorCode.unknownCommand]
    ∧ (Client.receiveMessage env0 c0 (Frame.ok ⟨"m2", "bogus.action"⟩)).socketOpen
        = c0.socketOpen :=
  unknown_group_yields_unknownCommand env0 c0 ⟨"m2", "bogus.action"⟩ (by decide) (by decide)

/-- C10: a decoded command whose group component is "driver" reaches
the driver entry of instanceHandlers, which throws a plain Error; the
catch block's non-BaseError branch replies with errorCode unknownError
and the connection stays open. -/
theorem driver_command_unknownError (env : Env) (c : Client) (msg : IncomingMessage)
    (h : commandInstance msg.command = "driver") :
    (Client.receiveMessage env c (Frame.ok msg)).sent
        = c.sent ++ [OutgoingMessage.resultError msg.messageId ErrorCode.unknownError]
    ∧ (Client.receiveMessage env c (Frame.ok msg)).socketOpen = c.socketOpen := by
  have h1 : msg.command ≠ "start_listening" := by
    intro heq
    rw [heq] at h
    exact absurd h (by decide)
  have h2 : handlerLookup (commandInstance msg.command)
      = HandlerLookup.ownHandler Instance.driver := by
    rw [h]
    decide
  constructor <;>
    simp [Client.receiveMessage, if_neg h1, h2, instanceHandler,
      Client.sendResultError, Client.sendData]

/-- C10 witness at the command "driver.get_config". -/
theorem driver_command_unknownError_witness :
    (Client.receiveMessage env0 c0 (Frame.ok ⟨"m5", "driver.get_config"⟩)).sent
        = c0.sent ++ [OutgoingMessage.resultError "m5" ErrorCode.unknownError]
    ∧ (Client.receiveMessage env0 c0 (Frame.ok ⟨"m5", "driver.get_config"⟩)).socketOpen
        = c0.socketOpen :=
  driver_command_unknownError env0 c0 ⟨"m5", "driver.get_config"⟩ (by decide)

/-- C4 counterexample: a controller command whose handler throws a
domain error of the controlled-device subsystem (nested code 100,
message "Node not found") is answered with a plain failure envelope
whose errorCode is unknownError; no envelope of the session's trace
carries the nested zwaveErrorCode and zwaveErrorMessage fields. -/
theorem zwave_error_fields_not_emitted :
    (Client.receiveMessage envZ c0 (Frame.ok ⟨"m3", "controller.begin_inclusion"⟩)).sent
        = [OutgoingMessage.resultError "m3" ErrorCode.unknownError]
    ∧ (∀ m ∈ (Client.receiveMessage envZ c0 (Frame.ok ⟨"m3", "controller.begin_inclusion"⟩)).sent,
        OutgoingMessage.hasZWaveFields m = false) := by
  decide

/-- C4 amended: every handler failure that originates in the
controlled-device subsystem is collapsed by the catch block (a domain
ZWaveError is not an instance of the repository's BaseError) to a plain
failure envelope carrying only errorCode unknownError; the nested
zwaveErrorCode and zwaveErrorMessage fields declared by
OutgoingResultMessageZWaveError are never emitted. -/
theorem zwave_failure_collapses_to_unknownError (env : Env) (c : Client)
    (msg : IncomingMessage) (inst : Instance) (zc : Nat) (zm : String)
    (h1 : msg.command ≠ "start_listening")
    (h2 : instanceOfString (commandInstance msg.command) = some inst)
    (h3 : instanceHandler env inst msg = HandlerOutcome.failure (ThrownError.zwave zc zm)) :
    (Client.receiveMessage env c (Frame.ok msg)).sent
        = c.sent ++ [OutgoingMessage.resultError msg.messageId ErrorCode.unknownError]
    ∧ (∀ m ∈ (Client.receiveMessage env c (Frame.ok msg)).sent,
        OutgoingMessage.hasZWaveFields m = false
          ∨ m ∈ c.sent) := by
  have hlk : handlerLookup (commandInstance msg.command) = HandlerLookup.ownHandler inst := by
    simp [handlerLookup, h2]
  have hsent : (Client.receiveMessage env c (Frame.ok msg)).sent
      = c.sent ++ [OutgoingMessage.resultError msg.messageId ErrorCode.unknownError] := by
    simp [Client.receiveMessage, if_neg h1, hlk, h3, Client.sendResultError, Client.sendData]
  refine ⟨hsent, ?_⟩
  intro m hm
  rw [hsent] at hm
  rcases List.mem_append.mp hm with hold | hnew
  · exact Or.inr hold
  · left
    have : m = OutgoingMessage.resultError msg.messageId ErrorCode.unknownError := by
      simpa using hnew
    rw [this]
    rfl

/-- C4 amended, witness: a node command against envZ. -/
theorem zwave_failure_collapses_to_unknownError_witness :
    (Client.receiveMessage envZ c0 (Frame.ok ⟨"m4", "node.set_value"⟩)).sent
        = c0.sent ++ [OutgoingMessage.resultError "m4" ErrorCode.unknownError]
    ∧ (∀ m ∈ (Client.receiveMessage envZ c0 (Frame.ok ⟨"m4", "node.set_value"⟩)).sent,
        OutgoingMessage.hasZWaveFields m = false
          ∨ m ∈ c0.sent) :=
  zwave_failure_collapses_to_unknownError envZ c0 ⟨"m4", "node.set_value"⟩ Instance.node
    100 "Node not found" (by decide) (by decide) (by decide)

/-- C2: at fan-out time the i-th tracked session receives the event
envelope exactly when its receiveEvents flag and its isConnected check
are both true, and is left untouched otherwise; sendEvent appends the
event envelope to the session's outbound trace. -/
theorem fanOut_sends_iff (cs : Clients) (d : OutgoingEvent) (i : Nat)
    (h : i < cs.clients.length) :
    ∃ h2 : i < (Clients.fanOut cs d).clients.length,
      ((Clients.fanOut cs d).clients.get ⟨i, h2⟩)
          = (if (cs.clients.get ⟨i, h⟩).receiveEvents = true
                ∧ (cs.clients.get ⟨i, h⟩).isConnected = true
             then Client.sendEvent (cs.clients.get ⟨i, h⟩) d
             else cs.clients.get ⟨i, h⟩)
      ∧ (Client.sendEvent (cs.clients.get ⟨i, h⟩) d).sent
          = (cs.clients.get ⟨i, h⟩).sent ++ [OutgoingMessage.event d] := by
  have hlen : (Clients.fanOut cs d).clients.length = cs.clients.length := by
    simp [Clients.fanOut]
  refine ⟨by rw [hlen]; exact h, ?_, rfl⟩
  have hget : ((Clients.fanOut cs d).clients.get ⟨i, by rw [hlen]; exact h⟩)
      = (fun cl => if cl.receiveEvents && cl.isConnected then cl.sendEvent d else cl)
          (cs.clients.get ⟨i, h⟩) := by
    simp [Clients.fanOut, List.get_eq_getElem, List.getElem_map]
  rw [hget]
  by_cases hre : (cs.clients.get ⟨i, h⟩).receiveEvents = true
  · by_cases hco : (cs.clients.get ⟨i, h⟩).isConnected = true
    · simp [hre, hco]
    · have hco2 : (cs.clients.get ⟨i, h⟩).isConnected = false := by
        cases hx : (cs.clients.get ⟨i, h⟩).isConnected with
        | true => exact absurd hx hco
        | false => rfl
      simp [hre, hco2]
  · have hre2 : (cs.clients.get ⟨i, h⟩).receiveEvents = false := by
      cases hx : (cs.clients.get ⟨i, h⟩).receiveEvents with
      | true => exact absurd hx hre
      | false => rfl
    simp [hre2]

/-- C2 witness: a registry tracking one subscribed connected session;
fan-out of a concrete event appends it to that session's trace. -/
theorem fanOut_sends_iff_witness :
    ∃ h2 : 0 < (Clients.fanOut csW evW).clients.length,
      ((Clients.fanOut csW evW).clients.get ⟨0, h2⟩)
          = (if (csW.clients.get ⟨0, by decide⟩).receiveEvents = true
                ∧ (csW.clients.get ⟨0, by decide⟩).isConnected = true
             then Client.sendEvent (csW.clients.get ⟨0, by decide⟩) evW
             else csW.clients.get ⟨0, by decide⟩)
      ∧ (Client.sendEvent (csW.clients.get ⟨0, by decide⟩) evW).sent
          = (csW.clients.get ⟨0, by decide⟩).sent ++ [OutgoingMessage.event evW] :=
  fanOut_sends_iff csW evW 0 (by decide)

/-- C3: the liveness sweep installed by addSocket never calls
checkAlive.  A connected session whose outstandingPing flag is already
set survives every sweep unchanged — it is neither force-disconnected
nor probed (its ping count stays 0 forever) — although checkAlive,
were it called, would disconnect it.  The sweep only drops sessions
whose socket is already not open. -/
theorem sweep_never_calls_checkAlive :
    (∀ n : Nat, Clients.sweep^[n] stuckRegistry = stuckRegistry)
    ∧ stuckClient.outstandingPing = true
    ∧ stuckClient.isConnected = true
    ∧ (Client.checkAlive stuckClient).isConnected = false
    ∧ (∀ n : Nat, ∀ cl ∈ (Clients.sweep^[n] stuckRegistry).clients,
        cl.pingsSent = 0 ∧ cl.isConnected = true) := by
  have hfix : Clients.sweep stuckRegistry = stuckRegistry := by decide
  refine ⟨fun n => Function.iterate_fixed hfix n, rfl, rfl, rfl, ?_⟩
  intro n cl hcl
  rw [Function.iterate_fixed hfix n] at hcl
  have : cl = stuckClient := by simpa [stuckRegistry] using hcl
  rw [this]
  exact ⟨rfl, rfl⟩

/-- C7: addSocket appends exactly one fresh session whose outbound
trace is exactly one version envelope, sent before anything else; the
envelope carries type, driverVersion (the placeholder "TBD"),
serverVersion and homeId, and omits the minSchemaVersion and
maxSchemaVersion keys (none) that OutgoingVersionMessage declares as
required. -/
theorem addSocket_version_envelope (env : Env) (cs : Clients) :
    ∃ cl : Client,
      (Clients.addSocket env cs).clients = cs.clients ++ [cl]
        ∧ cl.sent = [OutgoingMessage.version "TBD" env.serverVersion env.homeId none none]
        ∧ cl.receiveEvents = false
        ∧ cl.isConnected = true := by
  refine ⟨Client.sendVersion env { }, ?_, rfl, rfl, rfl⟩
  simp only [Clients.addSocket]
  by_cases hp : cs.pingIntervalSet <;> by_cases he : cs.eventForwarderSet <;>
    simp [hp, he]

/-- C8: registry shutdown clears the ping interval, leaves every
previously tracked session disconnected, empties the tracked set, and
is idempotent; after shutdown neither fan-out nor the sweep body
changes the registry, so no further event envelope is delivered to any
session. -/
theorem registry_shutdown (cs : Clients) :
    (Clients.disconnect cs).pingIntervalSet = false
    ∧ (Clients.disconnect cs).clients = []
    ∧ (Clients.disconnectClients cs).clients = cs.clients.map Client.disconnect
    ∧ (∀ cl ∈ (Clients.disconnectClients cs).clients, cl.isConnected = false)
    ∧ Clients.disconnect (Clients.disconnect cs) = Clients.disconnect cs
    ∧ (∀ d : OutgoingEvent, Clients.fanOut (Clients.disconnect cs) d = Clients.disconnect cs)
    ∧ Clients.sweep (Clients.disconnect cs) = Clients.disconnect cs := by
  refine ⟨rfl, rfl, rfl, ?_, rfl, fun d => rfl, rfl⟩
  intro cl hcl
  simp only [Clients.disconnectClients] at hcl
  rcases List.mem_map.mp hcl with ⟨x, -, hx⟩
  rw [← hx]
  rfl

/-- C8 witness: shutdown of a registry tracking one connected
session. -/
theorem registry_shutdown_witness :
    (Clients.disconnect csW).pingIntervalSet = false
    ∧ (Clients.disconnect csW).clients = []
    ∧ (Clients.disconnectClients csW).clients = csW.clients.map Client.disconnect
    ∧ (∀ cl ∈ (Clients.disconnectClients csW).clients, cl.isConnected = false)
    ∧ Clients.disconnect (Clients.disconnect csW) = Clients.disconnect csW
    ∧ (∀ d : OutgoingEvent, Clients.fanOut (Clients.disconnect csW) d = Clients.disconnect csW)
    ∧ Clients.sweep (Clients.disconnect csW) = Clients.disconnect csW :=
  registry_shutdown csW

/-- C9: starting from a registry whose cleanupScheduled flag is clear,
any sequence of close notifications and cleanup runs keeps at most one
debounced cleanup pending, with the flag set exactly while one is
pending; a close notification arriving while one is pending is a no-op
on the whole state; running the cleanup clears the flag; and the
cleanup pass keeps exactly the still-connected sessions. -/
theorem cleanup_debounced (cs : Clients) (hclear : cs.cleanupScheduled = false)
    (evs : List RegEvent) :
    (runSched evs ⟨cs, 0⟩).pendingCleanups ≤ 1
    ∧ ((runSched evs ⟨cs, 0⟩).cs.cleanupScheduled = true
        ↔ (runSched evs ⟨cs, 0⟩).pendingCleanups = 1)
    ∧ ((runSched evs ⟨cs, 0⟩).cs.cleanupScheduled = true
        → schedStep (runSched evs ⟨cs, 0⟩) RegEvent.closeNotify = runSched evs ⟨cs, 0⟩)
    ∧ (0 < (runSched evs ⟨cs, 0⟩).pendingCleanups
        → (schedStep (runSched evs ⟨cs, 0⟩) RegEvent.runCleanup).cs.cleanupScheduled = false)
    ∧ (∀ cl, cl ∈ (Clients.cleanupClients (runSched evs ⟨cs, 0⟩).cs).clients
        ↔ cl ∈ (runSched evs ⟨cs, 0⟩).cs.clients ∧ cl.isConnected = true) := by
  have hinv0 : DebounceInv ⟨cs, 0⟩ := by
    constructor
    · simp [hclear]
    · simp
  have hinv := debounceInv_run evs ⟨cs, 0⟩ hinv0
  obtain ⟨hiff, hle⟩ := hinv
  refine ⟨hle, hiff, ?_, ?_, ?_⟩
  · intro hflag
    simp [schedStep, Clients.scheduleClientCleanup, hflag]
  · intro hpos
    have hz : ¬((runSched evs ⟨cs, 0⟩).pendingCleanups = 0) := by omega
    simp [schedStep, hz, Clients.cleanupClients]
  · intro cl
    simp [Clients.cleanupClients, List.mem_filter]

/-- C9 witness: two coalesced close notifications followed by the
cleanup run, from an empty registry. -/
theorem cleanup_debounced_witness :
    (runSched [RegEvent.closeNotify, RegEvent.closeNotify, RegEvent.runCleanup]
        ⟨{ }, 0⟩).pendingCleanups ≤ 1
    ∧ ((runSched [RegEvent.closeNotify, RegEvent.closeNotify, RegEvent.runCleanup]
        ⟨{ }, 0⟩).cs.cleanupScheduled = true
        ↔ (runSched [RegEvent.closeNotify, RegEvent.closeNotify, RegEvent.runCleanup]
        ⟨{ }, 0⟩).pendingCleanups = 1)
    ∧ ((runSched [RegEvent.closeNotify, RegEvent.closeNotify, RegEvent.runCleanup]
        ⟨{ }, 0⟩).cs.cleanupScheduled = true
        → schedStep (runSched [RegEvent.closeNotify, RegEvent.closeNotify, RegEvent.runCleanup]
            ⟨{ }, 0⟩) RegEvent.closeNotify
          = runSched [RegEvent.closeNotify, RegEvent.closeNotify, RegEvent.runCleanup] ⟨{ }, 0⟩)
    ∧ (0 < (runSched [RegEvent.closeNotify, RegEvent.closeNotify, RegEvent.runCleanup]
        ⟨{ }, 0⟩).pendingCleanups
        → (schedStep (runSched [RegEvent.closeNotify, RegEvent.closeNotify, RegEvent.runCleanup]
            ⟨{ }, 0⟩) RegEvent.runCleanup).cs.cleanupScheduled = false)
    ∧ (∀ cl, cl ∈ (Clients.cleanupClients
          (runSched [RegEvent.closeNotify, RegEvent.closeNotify, RegEvent.runCleanup]
            ⟨{ }, 0⟩).cs).clients
        ↔ cl ∈ (runSched [RegEvent.closeNotify, RegEvent.closeNotify, RegEvent.runCleanup]
            ⟨{ }, 0⟩).cs.clients ∧ cl.isConnected = true) :=
  cleanup_debounced { } rfl [RegEvent.closeNotify, RegEvent.closeNotify, RegEvent.runCleanup]

end ZWS
